import Mathlib

/-!
Verification of the tilegen repository (a gdal2tiles port).

Shallow embedding conventions:
* Python floats are modelled as `ℚ` (all arithmetic in the verified fragments
  is field arithmetic on decimal/dyadic constants, exactly representable).
* Python `int(...)` applied to a float truncates toward zero (`pyInt`).
* Python `%` on integers rounds the quotient toward negative infinity, so its
  result has the sign of the divisor; this is `Int.fmod`.
* A Python exception (ZeroDivisionError, IndexError, ValueError) is modelled
  by `Option`/`Except` with `none`/`error` as the raised outcome.
-/

namespace Tilegen

/-- Python `int()` on a float value: truncation toward zero. -/
def pyInt (q : ℚ) : ℤ := if 0 ≤ q then ⌊q⌋ else ⌈q⌉

/-- Python `%` on integers: the remainder whose sign follows the divisor. -/
def pyMod (a b : ℤ) : ℤ := Int.fmod a b

/-- `geodetic/__init__.py`: class `GlobalGeodetic`, holding the tile size
(256 in `GDAL2Tiles`, where `GlobalGeodetic()` is built with the default). -/
structure GlobalGeodetic where
  tileSize : ℕ

namespace GlobalGeodetic

/-- `GlobalGeodetic.Resolution` (geodetic/__init__.py:59-61):
`180.0 / self.tileSize / 2 ** zoom`. -/
def Resolution (g : GlobalGeodetic) (zoom : ℕ) : ℚ :=
  180 / (g.tileSize : ℚ) / 2 ^ zoom

/-- `GlobalGeodetic.LatLonToPixels` (geodetic/__init__.py:41-46).
Note the source divides `180 + lat` for the x pixel and `90 + lon` for the
y pixel: the two arguments are used in swapped roles, consistently with the
call sites in gdal2tiles/__init__.py which pass x first. -/
def LatLonToPixels (g : GlobalGeodetic) (lat lon : ℚ) (zoom : ℕ) : ℚ × ℚ :=
  let res : ℚ := 180 / (g.tileSize : ℚ) / 2 ^ zoom
  ((180 + lat) / res, (90 + lon) / res)

/-- `GlobalGeodetic.PixelsToTile` (geodetic/__init__.py:48-52):
`int(math.ceil(px / float(tileSize)) - 1)` equals `⌈px / tileSize⌉ - 1`
because the truncation acts on an integer-valued float. -/
def PixelsToTile (g : GlobalGeodetic) (px py : ℚ) : ℤ × ℤ :=
  (⌈px / (g.tileSize : ℚ)⌉ - 1, ⌈py / (g.tileSize : ℚ)⌉ - 1)

/-- `GlobalGeodetic.LatLonToTile` (geodetic/__init__.py:54-57). -/
def LatLonToTile (g : GlobalGeodetic) (lat lon : ℚ) (zoom : ℕ) : ℤ × ℤ :=
  let p := g.LatLonToPixels lat lon zoom
  g.PixelsToTile p.1 p.2

/-- Modelled from the spec: `MAXZOOMLEVEL` is imported from the `common`
module, which is not among the sources here; the spec indexes tile matrices
"by zoom 0..31 for Mercator/Geodetic" and the tile-matrix loops in
gdal2tiles/__init__.py run over `range(0, 32)`, so the bound is 32. -/
def MAXZOOMLEVEL : ℕ := 32

/-- The loop body of `GlobalGeodetic.ZoomForPixelSize`
(geodetic/__init__.py:64-71): scan `i = start, start+1, ...` while fuel
remains; on the first `i` with `pixelSize > Resolution(i)` return `i - 1`
(or `0` when `i = 0`); if the loop ends without triggering, Python falls off
the function body and returns `None`. -/
def zoomScan (g : GlobalGeodetic) (pixelSize : ℚ) : ℕ → ℕ → Option ℤ
  | _, 0 => none
  | i, fuel + 1 =>
    if g.Resolution i < pixelSize then
      if i ≠ 0 then some ((i : ℤ) - 1) else some 0
    else
      zoomScan g pixelSize (i + 1) fuel

/-- `GlobalGeodetic.ZoomForPixelSize` (geodetic/__init__.py:64-71). -/
def ZoomForPixelSize (g : GlobalGeodetic) (pixelSize : ℚ) : Option ℤ :=
  zoomScan g pixelSize 0 MAXZOOMLEVEL

/-- Geographic bounds `(minx, miny, maxx, maxy)` as returned by
`GlobalGeodetic.TileBounds`. -/
structure GeoBounds where
  minx : ℚ
  miny : ℚ
  maxx : ℚ
  maxy : ℚ
deriving DecidableEq

/-- `GlobalGeodetic.TileBounds` (geodetic/__init__.py:73-81). -/
def TileBounds (g : GlobalGeodetic) (tx ty : ℤ) (zoom : ℕ) : GeoBounds :=
  let res : ℚ := 180 / (g.tileSize : ℚ) / 2 ^ zoom
  ⟨(tx : ℚ) * (g.tileSize : ℚ) * res - 180,
   (ty : ℚ) * (g.tileSize : ℚ) * res - 90,
   ((tx : ℚ) + 1) * (g.tileSize : ℚ) * res - 180,
   ((ty : ℚ) + 1) * (g.tileSize : ℚ) * res - 90⟩

end GlobalGeodetic

/-- Second half of one axis of `GDAL2Tiles.geo_query`
(gdal2tiles/__init__.py:978-980 for x, 989-991 for y):
`if r + rsize > limit: wsize = int(wsize * (float(limit - r) / rsize)); rsize = limit - r`.
The float division raises ZeroDivisionError when `rsize = 0`, modelled as
`none`.  Result tuple: `(r, rsize, w, wsize)`. -/
def clipHigh (limit r rsize w wsize : ℤ) : Option (ℤ × ℤ × ℤ × ℤ) :=
  if r + rsize > limit then
    if rsize = 0 then none
    else some (r, limit - r, w, pyInt ((wsize : ℚ) * (((limit : ℚ) - (r : ℚ)) / (rsize : ℚ))))
  else some (r, rsize, w, wsize)

/-- One axis of the clipping in `GDAL2Tiles.geo_query`
(gdal2tiles/__init__.py:970-991): first the `r < 0` shift
(`rshift = abs(r); w = int(wsize * (float(rshift) / rsize));
wsize = wsize - w; rsize = rsize - int(rsize * (float(rshift) / rsize));
r = 0`), then the upper clip `clipHigh`.  The divisions by `rsize` raise
ZeroDivisionError when `rsize = 0`, modelled as `none`. -/
def clipAxis (limit r0 rsize0 wsize0 : ℤ) : Option (ℤ × ℤ × ℤ × ℤ) :=
  if r0 < 0 then
    if rsize0 = 0 then none
    else
      let rshift : ℤ := |r0|
      let w := pyInt ((wsize0 : ℚ) * ((rshift : ℚ) / (rsize0 : ℚ)))
      let rsize1 := rsize0 - pyInt ((rsize0 : ℚ) * ((rshift : ℚ) / (rsize0 : ℚ)))
      clipHigh limit 0 rsize1 w (wsize0 - w)
  else clipHigh limit r0 rsize0 0 wsize0

/-- `GDAL2Tiles.geo_query` (gdal2tiles/__init__.py:953-993).  The dataset is
represented by its size `(xsize, ysize)` and geotransform entries
`g0 = geotran[0]`, `g1 = geotran[1]`, `g3 = geotran[3]`, `g5 = geotran[5]`
(the rotation terms `geotran[2]`, `geotran[4]` are unused by the function).
Returns the pair of the read window `(rx, ry, rxsize, rysize)` and the write
window `(wx, wy, wxsize, wysize)`; Python's ZeroDivisionError is `none`. -/
def geo_query (xsize ysize : ℤ) (g0 g1 g3 g5 : ℚ) (ulx uly lrx lry : ℚ)
    (querysize : ℤ) : Option ((ℤ × ℤ × ℤ × ℤ) × (ℤ × ℤ × ℤ × ℤ)) :=
  if g1 = 0 ∨ g5 = 0 then none else
  let rx := pyInt ((ulx - g0) / g1 + 1 / 1000)
  let ry := pyInt ((uly - g3) / g5 + 1 / 1000)
  let rxsize := pyInt ((lrx - ulx) / g1 + 1 / 2)
  let rysize := pyInt ((lry - uly) / g5 + 1 / 2)
  let wxsize := if querysize = 0 then rxsize else querysize
  let wysize := if querysize = 0 then rysize else querysize
  match clipAxis xsize rx rxsize wxsize, clipAxis ysize ry rysize wysize with
  | some (rx1, rxsize1, wx1, wxsize1), some (ry1, rysize1, wy1, wysize1) =>
    some ((rx1, ry1, rxsize1, rysize1), (wx1, wy1, wxsize1, wysize1))
  | _, _ => none

/-- A per-zoom tile matrix entry `self.tminmax[tz]` (inclusive rectangle). -/
structure TileRect where
  tminx : ℤ
  tminy : ℤ
  tmaxx : ℤ
  tmaxy : ℤ
deriving DecidableEq

/-- The geodetic tile-matrix computation of `GDAL2Tiles.open_input`
(gdal2tiles/__init__.py:554-560): tile indices of the two dataset corners,
then `tminx, tminy = max(0, tminx), max(0, tminy)` and
`tmaxx, tmaxy = min(2**(tz+1) - 1, tmaxx), min(2**tz - 1, tmaxy)`. -/
def tminmaxGeodetic (g : GlobalGeodetic) (ominx ominy omaxx omaxy : ℚ)
    (tz : ℕ) : TileRect :=
  let tmin := g.LatLonToTile ominx ominy tz
  let tmax := g.LatLonToTile omaxx omaxy tz
  ⟨max 0 tmin.1, max 0 tmin.2,
   min (2 ^ (tz + 1) - 1) tmax.1, min (2 ^ tz - 1) tmax.2⟩

/-- Modelled from the spec: the `mercator` module (class `GlobalMercator`)
is not among the sources here.  Per the spec, the Mercator world is a square
of side `2·π·R` (R the EPSG:900913 Earth radius) split into `2^zoom` tiles
per side with the pixel/tile origin bottom-left.  The code computes with the
float value of the half-side origin shift `π·R`; that float is a rational
number, held here as the field `originShift`. -/
structure GlobalMercator where
  tileSize : ℕ
  originShift : ℚ

namespace GlobalMercator

/-- Modelled from the spec: `toPixel` for the Mercator profile — resolution
`(world side / tileSize) / 2^zoom` and pixel origin at the bottom-left world
corner `(-originShift, -originShift)`. -/
def MetersToPixels (m : GlobalMercator) (mx my : ℚ) (zoom : ℕ) : ℚ × ℚ :=
  let res : ℚ := 2 * m.originShift / (m.tileSize : ℚ) / 2 ^ zoom
  ((mx + m.originShift) / res, (my + m.originShift) / res)

/-- Modelled from the spec: `pixelToTile` for the Mercator profile, the tile
covering a pixel position — the shared `⌈p / tileSize⌉ - 1` idiom of the
profile capability set (as in the geodetic `PixelsToTile`). -/
def PixelsToTile (m : GlobalMercator) (px py : ℚ) : ℤ × ℤ :=
  (⌈px / (m.tileSize : ℚ)⌉ - 1, ⌈py / (m.tileSize : ℚ)⌉ - 1)

/-- Modelled from the spec: `geoToTile` for the Mercator profile
(`MetersToTile`), the composition of the two conversions above. -/
def MetersToTile (m : GlobalMercator) (mx my : ℚ) (zoom : ℕ) : ℤ × ℤ :=
  let p := m.MetersToPixels mx my zoom
  m.PixelsToTile p.1 p.2

end GlobalMercator

/-- The mercator tile-matrix computation of `GDAL2Tiles.open_input`
(gdal2tiles/__init__.py:520-526): tile indices of the two dataset corners,
then `tminx, tminy = max(0, tminx), max(0, tminy)` and
`tmaxx, tmaxy = min(2**tz - 1, tmaxx), min(2**tz - 1, tmaxy)`. -/
def tminmaxMercator (m : GlobalMercator) (ominx ominy omaxx omaxy : ℚ)
    (tz : ℕ) : TileRect :=
  let tmin := m.MetersToTile ominx ominy tz
  let tmax := m.MetersToTile omaxx omaxy tz
  ⟨max 0 tmin.1, max 0 tmin.2,
   min (2 ^ tz - 1) tmax.1, min (2 ^ tz - 1) tmax.2⟩

/-- The child-inclusion test of `GDAL2Tiles.generate_overview_tiles`
(gdal2tiles/__init__.py:918-919):
`x >= minx and x <= maxx and y >= miny and y <= maxy`. -/
def inRect (r : TileRect) (x y : ℤ) : Bool :=
  decide (r.tminx ≤ x) && decide (x ≤ r.tmaxx) &&
    decide (r.tminy ≤ y) && decide (y ≤ r.tmaxy)

/-- Vertical placement of a child tile on the 2x2 overview canvas
(gdal2tiles/__init__.py:923-926):
`if (ty == 0 and y == 1) or (ty != 0 and (y % (2 * ty)) != 0): tileposy = 0
else: tileposy = tilesize`.  The modulo is evaluated only under the
`ty != 0` guard, exactly as Python short-circuits it. -/
def tileposyCode (tilesize ty y : ℤ) : ℤ :=
  if (ty = 0 ∧ y = 1) ∨ (ty ≠ 0 ∧ pyMod y (2 * ty) ≠ 0) then 0 else tilesize

/-- Horizontal placement of a child tile on the 2x2 overview canvas
(gdal2tiles/__init__.py:927-932):
`if tx: tileposx = x % (2 * tx) * tilesize
elif tx == 0 and x == 1: tileposx = tilesize
else: tileposx = 0`. -/
def tileposxCode (tilesize tx x : ℤ) : ℤ :=
  if tx ≠ 0 then pyMod x (2 * tx) * tilesize
  else if tx = 0 ∧ x = 1 then tilesize
  else 0

/-- The four child addresses visited by the overview loops
(gdal2tiles/__init__.py:916-917), in loop order
(`for y in range(2*ty, 2*ty + 2): for x in range(2*tx, 2*tx + 2)`). -/
def childTiles (tx ty : ℤ) : List (ℤ × ℤ) :=
  [(2 * tx, 2 * ty), (2 * tx + 1, 2 * ty),
   (2 * tx, 2 * ty + 1), (2 * tx + 1, 2 * ty + 1)]

/-- One `WriteRaster` call onto the 2x2 overview query canvas: which child
`(x, y)` was read and at which canvas offset `(posx, posy)` its full
`tilesize` x `tilesize` content was placed. -/
structure CanvasWrite where
  x : ℤ
  y : ℤ
  posx : ℤ
  posy : ℤ
deriving DecidableEq

/-- The writes performed onto the overview query canvas for parent
`(tx, ty)` (gdal2tiles/__init__.py:914-936): each of the four children is
written exactly when it lies inside the tile matrix rectangle of the finer
zoom; children outside it are skipped without any error path. -/
def composedWrites (tilesize : ℤ) (r : TileRect) (tx ty : ℤ) :
    List CanvasWrite :=
  (childTiles tx ty).filterMap fun p =>
    if inRect r p.1 p.2 then
      some ⟨p.1, p.2, tileposxCode tilesize tx p.1, tileposyCode tilesize ty p.2⟩
    else none

/-- The resampling choices of `GDAL2Tiles` (gdal2tiles/__init__.py:11). -/
inductive Resampling where
  | average
  | near
  | bilinear
  | cubic
  | cubicspline
  | lanczos
  | antialias
deriving DecidableEq

/-- The band loop of the `'average'` branch of
`GDAL2Tiles.scale_query_to_tile` (gdal2tiles/__init__.py:1003-1013):
`gdal.RegenerateOverview` is called per band and a non-zero status aborts
via `self.error("RegenerateOverview() failed on %s, error %d" % ...)`. -/
def regenLoop (status : ℕ → ℤ) (tilefilename : String) :
    List ℕ → Except String Unit
  | [] => Except.ok ()
  | i :: rest =>
    if status i ≠ 0 then
      Except.error (("RegenerateOverview() failed on ") ++ tilefilename ++
        (", error ") ++ toString (status i))
    else regenLoop status tilefilename rest

/-- `GDAL2Tiles.scale_query_to_tile` (gdal2tiles/__init__.py:996-1036),
abstracted over the provider call results: `regenStatus i` is the status of
`gdal.RegenerateOverview` on band `i`, `reprojStatus` the status of
`gdal.ReprojectImage`.  The `'antialias'` branch uses PIL with no status
checks.  `self.error` aborts the run, modelled as `Except.error`. -/
def scale_query_to_tile (resampling : Resampling) (tilebands : ℕ)
    (regenStatus : ℕ → ℤ) (reprojStatus : ℤ) (tilefilename : String) :
    Except String Unit :=
  match resampling with
  | Resampling.average =>
    regenLoop regenStatus tilefilename ((List.range tilebands).map (fun i => i + 1))
  | Resampling.antialias => Except.ok ()
  | _ =>
    if reprojStatus ≠ 0 then
      Except.error (("ReprojectImage() failed on ") ++ tilefilename ++
        (", error ") ++ toString reprojStatus)
    else Except.ok ()

/-- The tail of one tile iteration of `GDAL2Tiles.generate_base_tiles`
(gdal2tiles/__init__.py:845-852) and of `generate_overview_tiles`
(gdal2tiles/__init__.py:938-942): `scale_query_to_tile` runs first, and the
tile file is created by `self.out_drv.CreateCopy(tilefilename, dstile)`
afterwards (for every resampling but `'antialias'`, which saves the file
itself inside `scale_query_to_tile`).  Returns the list of files created by
`CreateCopy`. -/
def writeTileAfterScale (resampling : Resampling) (tilebands : ℕ)
    (regenStatus : ℕ → ℤ) (reprojStatus : ℤ) (tilefilename : String) :
    Except String (List String) :=
  match scale_query_to_tile resampling tilebands regenStatus reprojStatus tilefilename with
  | Except.error m => Except.error m
  | Except.ok _ =>
    Except.ok (if resampling = Resampling.antialias then [] else [tilefilename])

/-- Python `str.split('-', 1)` on the zoom option: the text before the first
dash, and (when a dash occurs) the remainder after it. -/
def splitDash : List Char → List Char × Option (List Char)
  | [] => ([], none)
  | c :: rest =>
    if c = '-' then ([], some rest)
    else
      let r := splitDash rest
      (c :: r.1, r.2)

/-- Digit accumulator for `parseInt`. -/
def parseDigitsAux : ℕ → List Char → Option ℕ
  | acc, [] => some acc
  | acc, c :: rest =>
    if c.isDigit then parseDigitsAux (acc * 10 + (c.toNat - 48)) rest
    else none

/-- Non-empty digit string to a natural number. -/
def parseDigits : List Char → Option ℕ
  | [] => none
  | cs => parseDigitsAux 0 cs

/-- Python `int(s)` on the zoom fields: optional leading minus then digits;
a ValueError (empty or malformed string) is `none`. -/
def parseInt : List Char → Option ℤ
  | '-' :: rest => (parseDigits rest).map (fun n => -(n : ℤ))
  | cs => (parseDigits cs).map (fun n => (n : ℤ))

/-- The zoom-option postprocessing of `GDAL2Tiles.__init__`
(gdal2tiles/__init__.py:166-177):
`minmax = zoom.split('-', 1); minmax.extend(['']); min, max = minmax[:2];
tminz = int(min); tmaxz = int(max) if max else int(min)`.
Returns `(tminz, tmaxz)`. -/
def parseZoomOption (zoomOpt : String) : Option (ℤ × ℤ) :=
  let s := splitDash zoomOpt.data
  let mx : List Char := match s.2 with | some t => t | none => []
  match parseInt s.1 with
  | none => none
  | some tminz =>
    if mx ≠ [] then
      match parseInt mx with
      | none => none
      | some tmaxz => some (tminz, tmaxz)
    else some (tminz, tminz)

/-- The zoom option string of the C9 scenario. -/
def zoomOptionString : String := "3-3"

/-- Python `range(tmaxz - 1, tminz - 1, -1)`: the zoom levels walked by
`GDAL2Tiles.generate_overview_tiles` (gdal2tiles/__init__.py:879), in
descending order. -/
def overviewZoomLevels (tminz tmaxz : ℤ) : List ℤ :=
  (List.range (tmaxz - 1 - (tminz - 1)).toNat).map (fun k => tmaxz - 1 - (k : ℤ))

/-- All zoom levels at which any tile is generated: `generate_base_tiles`
runs only at `tz = tmaxz` (gdal2tiles/__init__.py:743) and
`generate_overview_tiles` at `overviewZoomLevels`. -/
def generatedZoomLevels (tminz tmaxz : ℤ) : List ℤ :=
  tmaxz :: overviewZoomLevels tminz tmaxz

/-- A concrete tile file name used by the C8 witness. -/
def sampleTileName : String := "3/0/0.png"

/-- The NODATA_VALUES metadata write of `GDAL2Tiles.open_input`
(gdal2tiles/__init__.py:400-402):
`'%i %i %i' % (in_nodata[0], in_nodata[1], in_nodata[2])` indexes the first
three entries unconditionally; Python's IndexError is `none`. -/
def nodataValuesItem (in_nodata : List ℚ) : Option (ℚ × ℚ × ℚ) :=
  match in_nodata[0]?, in_nodata[1]?, in_nodata[2]? with
  | some a, some b, some c => some (a, b, c)
  | _, _, _ => none

/-! ## Helper lemmas -/

theorem clipHigh_bounds {limit r rsize w wsize r1 rsize1 w1 wsize1 : ℤ}
    (hr : 0 ≤ r)
    (h : clipHigh limit r rsize w wsize = some (r1, rsize1, w1, wsize1)) :
    0 ≤ r1 ∧ r1 + rsize1 ≤ limit := by
  unfold clipHigh at h
  by_cases hgt : r + rsize > limit
  · rw [if_pos hgt] at h
    by_cases hz : rsize = 0
    · rw [if_pos hz] at h; simp at h
    · rw [if_neg hz] at h
      simp only [Option.some_inj, Prod.mk.injEq] at h
      obtain ⟨e1, e2, e3, e4⟩ := h
      omega
  · rw [if_neg hgt] at h
    simp only [Option.some_inj, Prod.mk.injEq] at h
    obtain ⟨e1, e2, e3, e4⟩ := h
    omega

theorem clipAxis_bounds {limit r0 rsize0 wsize0 r1 rsize1 w1 wsize1 : ℤ}
    (h : clipAxis limit r0 rsize0 wsize0 = some (r1, rsize1, w1, wsize1)) :
    0 ≤ r1 ∧ r1 + rsize1 ≤ limit := by
  unfold clipAxis at h
  by_cases hneg : r0 < 0
  · rw [if_pos hneg] at h
    by_cases hz : rsize0 = 0
    · rw [if_pos hz] at h; simp at h
    · rw [if_neg hz] at h
      exact clipHigh_bounds le_rfl h
  · rw [if_neg hneg] at h
    exact clipHigh_bounds (by omega) h

/-! ## C1 -/

/-- C1: for every raster size `(xsize, ysize)` with positive extents, every
geotransform with nonzero pixel sizes, every query box and every
`querysize ≥ 0`, whenever `geo_query` returns a read window
`(rx, ry, rxsize, rysize)` it satisfies `0 ≤ rx`, `0 ≤ ry`,
`rx + rxsize ≤ xsize` and `ry + rysize ≤ ysize`: the read rectangle never
extends outside the raster, whether the query box is inside, partially
overlapping, or fully outside. -/
theorem geo_query_read_window_within_raster
    (xsize ysize : ℤ) (hx : 0 < xsize) (hy : 0 < ysize)
    (g0 g1 g3 g5 ulx uly lrx lry : ℚ) (hg1 : g1 ≠ 0) (hg5 : g5 ≠ 0)
    (querysize : ℤ) (hq : 0 ≤ querysize)
    (rx ry rxsize rysize wx wy wxsize wysize : ℤ)
    (h : geo_query xsize ysize g0 g1 g3 g5 ulx uly lrx lry querysize =
      some ((rx, ry, rxsize, rysize), (wx, wy, wxsize, wysize))) :
    0 ≤ rx ∧ 0 ≤ ry ∧ rx + rxsize ≤ xsize ∧ ry + rysize ≤ ysize := by
  simp only [geo_query] at h
  rw [if_neg (by tauto)] at h
  split at h
  · rename_i rx1 rxsize1 wx1 wxsize1 ry1 rysize1 wy1 wysize1 hcx hcy
    simp only [Option.some_inj, Prod.mk.injEq] at h
    obtain ⟨⟨e1, e2, e3, e4⟩, _⟩ := h
    subst e1; subst e2; subst e3; subst e4
    obtain ⟨p1, p2⟩ := clipAxis_bounds hcx
    obtain ⟨q1, q2⟩ := clipAxis_bounds hcy
    exact ⟨p1, q1, p2, q2⟩
  · simp at h

/-- Witness for C1 at a concrete dataset and query box. -/
theorem geo_query_read_window_within_raster_witness :
    0 ≤ (10 : ℤ) ∧ 0 ≤ (10 : ℤ) ∧ (10 : ℤ) + 10 ≤ 100 ∧ (10 : ℤ) + 10 ≤ 100 :=
  geo_query_read_window_within_raster 100 100 (by norm_num) (by norm_num)
    0 1 0 (-1) 10 (-10) 20 (-20) (by norm_num) (by norm_num)
    0 (by norm_num) 10 10 10 10 0 0 10 10
    (by norm_num [geo_query, clipAxis, clipHigh, pyInt])

/-! ## C2 and C7: overview child placement -/

theorem tileposx_canonical (tilesize tx x : ℤ) (htx : 0 ≤ tx)
    (hx : x = 2 * tx ∨ x = 2 * tx + 1) :
    tileposxCode tilesize tx x = (x - 2 * tx) * tilesize := by
  unfold tileposxCode pyMod
  by_cases h0 : tx = 0
  · subst h0
    rcases hx with h | h <;> subst h <;> norm_num
  · rw [if_pos h0]
    have h2 : (0 : ℤ) ≤ 2 * tx := by omega
    rcases hx with h | h <;> subst h
    · rw [Int.fmod_self]
      ring
    · rw [Int.fmod_eq_emod _ h2]
      have e1 : 2 * tx + 1 = 1 + 2 * tx * 1 := by ring
      rw [e1, Int.add_mul_emod_self_left, Int.emod_eq_of_lt (by omega) (by omega)]
      ring

theorem tileposy_canonical (tilesize ty y : ℤ) (hty : 0 ≤ ty)
    (hy : y = 2 * ty ∨ y = 2 * ty + 1) :
    tileposyCode tilesize ty y = (1 - (y - 2 * ty)) * tilesize := by
  unfold tileposyCode pyMod
  by_cases h0 : ty = 0
  · subst h0
    rcases hy with h | h <;> subst h <;> norm_num
  · have h2 : (0 : ℤ) ≤ 2 * ty := by omega
    rcases hy with h | h <;> subst h
    · rw [if_neg]
      · ring
      · rw [Int.fmod_self]
        simp [h0]
    · rw [if_pos]
      · ring
      · refine Or.inr ⟨h0, ?_⟩
        rw [Int.fmod_eq_emod _ h2]
        have e1 : 2 * ty + 1 = 1 + 2 * ty * 1 := by ring
        rw [e1, Int.add_mul_emod_self_left, Int.emod_eq_of_lt (by omega) (by omega)]
        omega

/-- C2: for every parent `(tx, ty)` with nonnegative indices and every child
`(x, y)` with `x ∈ {2tx, 2tx+1}` and `y ∈ {2ty, 2ty+1}`, the overview
compositor's parity special-casing computes exactly the canonical offsets
`tileposx = (x - 2tx) * tilesize` and `tileposy = (1 - (y - 2ty)) * tilesize`. -/
theorem overview_tilepos_matches_canonical (tilesize tx ty x y : ℤ)
    (htx : 0 ≤ tx) (hty : 0 ≤ ty)
    (hx : x = 2 * tx ∨ x = 2 * tx + 1) (hy : y = 2 * ty ∨ y = 2 * ty + 1) :
    tileposxCode tilesize tx x = (x - 2 * tx) * tilesize ∧
    tileposyCode tilesize ty y = (1 - (y - 2 * ty)) * tilesize :=
  ⟨tileposx_canonical tilesize tx x htx hx, tileposy_canonical tilesize ty y hty hy⟩

/-- Witness for C2 at `tilesize = 256`, parent `(1, 1)`, child `(3, 2)`. -/
theorem overview_tilepos_matches_canonical_witness :
    tileposxCode 256 1 3 = (3 - 2 * 1) * 256 ∧
    tileposyCode 256 1 2 = (1 - (2 - 2 * 1)) * 256 :=
  overview_tilepos_matches_canonical 256 1 1 3 2 (by norm_num) (by norm_num)
    (by omega) (by omega)

theorem mem_composedWrites {tilesize : ℤ} {r : TileRect} {tx ty : ℤ}
    {w : CanvasWrite} :
    w ∈ composedWrites tilesize r tx ty ↔
      ((w.x, w.y) ∈ childTiles tx ty ∧ inRect r w.x w.y = true ∧
        w.posx = tileposxCode tilesize tx w.x ∧
        w.posy = tileposyCode tilesize ty w.y) := by
  unfold composedWrites
  rw [List.mem_filterMap]
  constructor
  · rintro ⟨⟨px, py⟩, hp, hf⟩
    dsimp at hf
    by_cases hin : inRect r px py = true
    · rw [if_pos hin] at hf
      injection hf with hf
      subst hf
      exact ⟨hp, hin, rfl, rfl⟩
    · rw [if_neg hin] at hf
      exact absurd hf (by simp)
  · rintro ⟨hmem, hin, hpx, hpy⟩
    refine ⟨(w.x, w.y), hmem, ?_⟩
    dsimp
    rw [if_pos hin, ← hpx, ← hpy]

/-- C7: during overview composition of parent `(tx, ty)`, a child address is
written to the 2x2 query canvas exactly when it lies inside the finer zoom's
tile matrix rectangle; a child outside the rectangle is omitted and no other
write lands on its canvas quadrant, so that quadrant keeps the canvas's
initial fill.  The omission is an ordinary skip in `composedWrites`, not an
error outcome. -/
theorem overview_omits_exactly_outside_children
    (tilesize : ℤ) (hT : 0 < tilesize) (r : TileRect) (tx ty x y : ℤ)
    (htx : 0 ≤ tx) (hty : 0 ≤ ty) (hchild : (x, y) ∈ childTiles tx ty) :
    ((∃ w ∈ composedWrites tilesize r tx ty, w.x = x ∧ w.y = y) ↔
      inRect r x y = true) ∧
    (inRect r x y = false →
      ∀ w ∈ composedWrites tilesize r tx ty,
        ¬(w.posx = tileposxCode tilesize tx x ∧
          w.posy = tileposyCode tilesize ty y)) := by
  constructor
  · constructor
    · rintro ⟨w, hw, hwx, hwy⟩
      rw [mem_composedWrites] at hw
      obtain ⟨_, hin, _, _⟩ := hw
      rwa [hwx, hwy] at hin
    · intro hin
      refine ⟨⟨x, y, tileposxCode tilesize tx x, tileposyCode tilesize ty y⟩,
        ?_, rfl, rfl⟩
      rw [mem_composedWrites]
      exact ⟨hchild, hin, rfl, rfl⟩
  · rintro hout w hw ⟨hpx, hpy⟩
    rw [mem_composedWrites] at hw
    obtain ⟨hmem, hin, hwpx, hwpy⟩ := hw
    have hx : x = 2 * tx ∨ x = 2 * tx + 1 := by
      simp only [childTiles, List.mem_cons, List.mem_singleton,
        Prod.mk.injEq, List.not_mem_nil, or_false] at hchild
      omega
    have hy : y = 2 * ty ∨ y = 2 * ty + 1 := by
      simp only [childTiles, List.mem_cons, List.mem_singleton,
        Prod.mk.injEq, List.not_mem_nil, or_false] at hchild
      omega
    have hwx : w.x = 2 * tx ∨ w.x = 2 * tx + 1 := by
      simp only [childTiles, List.mem_cons, List.mem_singleton,
        Prod.mk.injEq, List.not_mem_nil, or_false] at hmem
      omega
    have hwy : w.y = 2 * ty ∨ w.y = 2 * ty + 1 := by
      simp only [childTiles, List.mem_cons, List.mem_singleton,
        Prod.mk.injEq, List.not_mem_nil, or_false] at hmem
      omega
    have ex : w.x = x := by
      have heq : (w.x - 2 * tx) * tilesize = (x - 2 * tx) * tilesize := by
        rw [← tileposx_canonical tilesize tx w.x htx hwx,
          ← tileposx_canonical tilesize tx x htx hx]
        rw [← hwpx, hpx]
      have := mul_right_cancel₀ (ne_of_gt hT) heq
      omega
    have ey : w.y = y := by
      have heq : (1 - (w.y - 2 * ty)) * tilesize = (1 - (y - 2 * ty)) * tilesize := by
        rw [← tileposy_canonical tilesize ty w.y hty hwy,
          ← tileposy_canonical tilesize ty y hty hy]
        rw [← hwpy, hpy]
      have := mul_right_cancel₀ (ne_of_gt hT) heq
      omega
    rw [ex, ey] at hin
    rw [hout] at hin
    exact Bool.false_ne_true hin

/-- Witness for C7 at `tilesize = 256`, matrix rectangle `(0,0)-(1,1)`,
parent `(0, 0)`, child `(0, 0)`. -/
theorem overview_omits_exactly_outside_children_witness :
    ((∃ w ∈ composedWrites 256 ⟨0, 0, 1, 1⟩ 0 0, w.x = 0 ∧ w.y = 0) ↔
      inRect ⟨0, 0, 1, 1⟩ 0 0 = true) ∧
    (inRect ⟨0, 0, 1, 1⟩ 0 0 = false →
      ∀ w ∈ composedWrites 256 ⟨0, 0, 1, 1⟩ 0 0,
        ¬(w.posx = tileposxCode 256 0 0 ∧ w.posy = tileposyCode 256 0 0)) :=
  overview_omits_exactly_outside_children 256 (by norm_num) ⟨0, 0, 1, 1⟩ 0 0 0 0
    (by norm_num) (by norm_num) (by decide)

/-! ## C3 and C4: resolution and zoom scan -/

theorem resolution_lt_iff (g : GlobalGeodetic) (hT : 0 < g.tileSize) {i j : ℕ} :
    g.Resolution j < g.Resolution i ↔ i < j := by
  unfold GlobalGeodetic.Resolution
  have hT' : (0 : ℚ) < (g.tileSize : ℚ) := by exact_mod_cast hT
  have ha : (0 : ℚ) < 180 / (g.tileSize : ℚ) := div_pos (by norm_num) hT'
  rw [div_lt_div_iff_of_pos_left ha (by positivity) (by positivity)]
  exact pow_lt_pow_iff_right₀ (by norm_num)

theorem zoomScan_roundtrip (g : GlobalGeodetic) (hT : 0 < g.tileSize) (z : ℕ) :
    ∀ fuel i, i ≤ z + 1 → z + 1 < i + fuel →
      g.zoomScan (g.Resolution z) i fuel = some (z : ℤ) := by
  intro fuel
  induction fuel with
  | zero => intro i h1 h2; omega
  | succ f ih =>
    intro i h1 h2
    simp only [GlobalGeodetic.zoomScan]
    by_cases hcase : i = z + 1
    · subst hcase
      rw [if_pos ((resolution_lt_iff g hT).mpr (by omega))]
      rw [if_pos (by omega : z + 1 ≠ 0)]
      congr 1
      push_cast
      ring
    · rw [if_neg]
      · exact ih (i + 1) (by omega) (by omega)
      · rw [resolution_lt_iff g hT]
        omega

theorem zoomScan_nonneg (g : GlobalGeodetic) (p : ℚ) :
    ∀ fuel i z, g.zoomScan p i fuel = some z → 0 ≤ z := by
  intro fuel
  induction fuel with
  | zero => intro i z h; simp [GlobalGeodetic.zoomScan] at h
  | succ f ih =>
    intro i z h
    simp only [GlobalGeodetic.zoomScan] at h
    by_cases hc : g.Resolution i < p
    · rw [if_pos hc] at h
      by_cases hi : i ≠ 0
      · rw [if_pos hi] at h
        injection h with h
        omega
      · rw [if_neg hi] at h
        injection h with h
        omega
    · rw [if_neg hc] at h
      exact ih (i + 1) z h

theorem zoomScan_isSome (g : GlobalGeodetic) (p : ℚ) :
    ∀ fuel i, 0 < fuel → g.Resolution (i + fuel - 1) < p →
      (g.zoomScan p i fuel).isSome = true := by
  intro fuel
  induction fuel with
  | zero => intro i h; omega
  | succ f ih =>
    intro i _ hres
    simp only [GlobalGeodetic.zoomScan]
    by_cases hc : g.Resolution i < p
    · rw [if_pos hc]
      by_cases hi : i ≠ 0 <;> simp [hi]
    · rw [if_neg hc]
      have hf : 0 < f := by
        rcases Nat.eq_zero_or_pos f with h0 | h0
        · subst h0
          exact absurd (by simpa using hres) hc
        · exact h0
      have he : i + 1 + f - 1 = i + (f + 1) - 1 := by omega
      exact ih (i + 1) hf (by rw [he]; exact hres)

/-- C3 counterexample: for the arbitrarily small positive pixel size
`1 / 2^50`, no zoom in `range(MAXZOOMLEVEL)` triggers the scan, so the
function falls off its body and returns no result (Python `None`) — the
claim that a result is never missing fails. -/
theorem zoomForPixelSize_missing_counterexample :
    (0 : ℚ) < 1 / 2 ^ 50 ∧
    GlobalGeodetic.ZoomForPixelSize ⟨256⟩ (1 / 2 ^ 50) = none := by
  constructor
  · norm_num
  · norm_num [GlobalGeodetic.ZoomForPixelSize, GlobalGeodetic.zoomScan,
      GlobalGeodetic.Resolution, GlobalGeodetic.MAXZOOMLEVEL]

/-- C3 amended: whenever `pixelSize` exceeds the finest scanned resolution
`Resolution(MAXZOOMLEVEL - 1)`, `ZoomForPixelSize` does return a value and
that value is a non-negative zoom; for smaller positive `pixelSize` the scan
is exhausted and the result is missing (see the counterexample). -/
theorem zoomForPixelSize_nonneg_when_in_range (g : GlobalGeodetic)
    (hT : 0 < g.tileSize) (pixelSize : ℚ)
    (hp : g.Resolution (GlobalGeodetic.MAXZOOMLEVEL - 1) < pixelSize) :
    ∃ z : ℤ, g.ZoomForPixelSize pixelSize = some z ∧ 0 ≤ z := by
  have hs := zoomScan_isSome g pixelSize GlobalGeodetic.MAXZOOMLEVEL 0
    (by norm_num [GlobalGeodetic.MAXZOOMLEVEL]) (by simpa using hp)
  obtain ⟨z, hz⟩ := Option.isSome_iff_exists.mp hs
  exact ⟨z, hz, zoomScan_nonneg g pixelSize _ 0 z hz⟩

/-- Witness for the amended C3 at tile size 256 and `pixelSize = 1`. -/
theorem zoomForPixelSize_nonneg_when_in_range_witness :
    ∃ z : ℤ, GlobalGeodetic.ZoomForPixelSize ⟨256⟩ 1 = some z ∧ 0 ≤ z :=
  zoomForPixelSize_nonneg_when_in_range ⟨256⟩ (by norm_num) 1
    (by norm_num [GlobalGeodetic.Resolution, GlobalGeodetic.MAXZOOMLEVEL])

/-- C4 counterexample: at `z = MAXZOOMLEVEL - 1 = 31` the roundtrip fails:
the scan would have to trigger at zoom 32, which is out of range, so
`ZoomForPixelSize(Resolution(31))` returns no result instead of 31. -/
theorem resolution_roundtrip_counterexample :
    GlobalGeodetic.ZoomForPixelSize ⟨256⟩ (GlobalGeodetic.Resolution ⟨256⟩ 31) ≠
      some (31 : ℤ) ∧
    GlobalGeodetic.ZoomForPixelSize ⟨256⟩ (GlobalGeodetic.Resolution ⟨256⟩ 31) =
      none := by
  have h : GlobalGeodetic.ZoomForPixelSize ⟨256⟩
      (GlobalGeodetic.Resolution ⟨256⟩ 31) = none := by
    norm_num [GlobalGeodetic.ZoomForPixelSize, GlobalGeodetic.zoomScan,
      GlobalGeodetic.Resolution, GlobalGeodetic.MAXZOOMLEVEL]
  exact ⟨by rw [h]; exact fun hc => Option.noConfusion hc, h⟩

/-- C4 amended: `Resolution` is strictly decreasing in the zoom, and the
roundtrip `ZoomForPixelSize(Resolution z) = z` holds for every zoom
`z ≤ MAXZOOMLEVEL - 2`; at `z = MAXZOOMLEVEL - 1` the roundtrip fails (see
the counterexample). -/
theorem resolution_strict_decrease_and_roundtrip (g : GlobalGeodetic)
    (hT : 0 < g.tileSize) (z : ℕ) (hz : z ≤ GlobalGeodetic.MAXZOOMLEVEL - 2) :
    g.Resolution (z + 1) < g.Resolution z ∧
    g.ZoomForPixelSize (g.Resolution z) = some (z : ℤ) := by
  constructor
  · exact (resolution_lt_iff g hT).mpr (by omega)
  · have hz' : z + 1 < 0 + GlobalGeodetic.MAXZOOMLEVEL := by
      simp only [GlobalGeodetic.MAXZOOMLEVEL] at hz ⊢
      omega
    exact zoomScan_roundtrip g hT z GlobalGeodetic.MAXZOOMLEVEL 0 (by omega) hz'

/-- Witness for the amended C4 at tile size 256 and `z = 3`. -/
theorem resolution_strict_decrease_and_roundtrip_witness :
    GlobalGeodetic.Resolution ⟨256⟩ (3 + 1) < GlobalGeodetic.Resolution ⟨256⟩ 3 ∧
    GlobalGeodetic.ZoomForPixelSize ⟨256⟩ (GlobalGeodetic.Resolution ⟨256⟩ 3) =
      some (3 : ℤ) :=
  resolution_strict_decrease_and_roundtrip ⟨256⟩ (by norm_num) 3
    (by norm_num [GlobalGeodetic.MAXZOOMLEVEL])

/-! ## C5: tile bounds contain the located point -/

theorem roundtrip_axis (T res v off : ℚ) (hT : 0 < T) (hres : 0 < res) :
    ((⌈(off + v) / res / T⌉ - 1 : ℤ) : ℚ) * T * res - off ≤ v ∧
    v ≤ (((⌈(off + v) / res / T⌉ - 1 : ℤ) : ℚ) + 1) * T * res - off := by
  set q : ℚ := (off + v) / res / T with hq
  have hqTres : q * T * res = off + v := by
    rw [hq]
    field_simp
    ring
  have h1 : ((⌈q⌉ : ℚ) - 1) ≤ q := by
    have := Int.ceil_lt_add_one q
    linarith
  have h2 : q ≤ (⌈q⌉ : ℚ) := Int.le_ceil q
  constructor
  · have hm : ((⌈q⌉ : ℚ) - 1) * T * res ≤ q * T * res := by
      apply mul_le_mul_of_nonneg_right _ (le_of_lt hres)
      exact mul_le_mul_of_nonneg_right h1 (le_of_lt hT)
    push_cast
    linarith
  · have hm : q * T * res ≤ (⌈q⌉ : ℚ) * T * res := by
      apply mul_le_mul_of_nonneg_right _ (le_of_lt hres)
      exact mul_le_mul_of_nonneg_right h2 (le_of_lt hT)
    push_cast
    linarith

/-- C5: for any point strictly inside some tile's interior at zoom `z`, the
bounds of the tile computed by `LatLonToTile` contain the point (first
coordinate against the minx/maxx range, second against miny/maxy, matching
the source's consistent use of its two arguments). -/
theorem tileBounds_contains_point (g : GlobalGeodetic) (hT : 0 < g.tileSize)
    (z : ℕ) (lat lon : ℚ)
    (hinterior : ∃ atx aty : ℤ,
      (g.TileBounds atx aty z).minx < lat ∧ lat < (g.TileBounds atx aty z).maxx ∧
      (g.TileBounds atx aty z).miny < lon ∧ lon < (g.TileBounds atx aty z).maxy) :
    (g.TileBounds (g.LatLonToTile lat lon z).1 (g.LatLonToTile lat lon z).2 z).minx ≤ lat ∧
    lat ≤ (g.TileBounds (g.LatLonToTile lat lon z).1 (g.LatLonToTile lat lon z).2 z).maxx ∧
    (g.TileBounds (g.LatLonToTile lat lon z).1 (g.LatLonToTile lat lon z).2 z).miny ≤ lon ∧
    lon ≤ (g.TileBounds (g.LatLonToTile lat lon z).1 (g.LatLonToTile lat lon z).2 z).maxy := by
  have hT' : (0 : ℚ) < (g.tileSize : ℚ) := by exact_mod_cast hT
  have hres : (0 : ℚ) < 180 / (g.tileSize : ℚ) / 2 ^ z := by positivity
  simp only [GlobalGeodetic.LatLonToTile, GlobalGeodetic.LatLonToPixels,
    GlobalGeodetic.PixelsToTile, GlobalGeodetic.TileBounds]
  obtain ⟨hx1, hx2⟩ :=
    roundtrip_axis (g.tileSize : ℚ) (180 / (g.tileSize : ℚ) / 2 ^ z) lat 180 hT' hres
  obtain ⟨hy1, hy2⟩ :=
    roundtrip_axis (g.tileSize : ℚ) (180 / (g.tileSize : ℚ) / 2 ^ z) lon 90 hT' hres
  refine ⟨?_, ?_, ?_, ?_⟩ <;> push_cast at hx1 hx2 hy1 hy2 ⊢ <;> linarith

/-- Witness for C5 at tile size 256, zoom 0 and the point `(10, 20)`,
strictly inside tile `(1, 0)`. -/
theorem tileBounds_contains_point_witness :
    (GlobalGeodetic.TileBounds ⟨256⟩ (GlobalGeodetic.LatLonToTile ⟨256⟩ 10 20 0).1
        (GlobalGeodetic.LatLonToTile ⟨256⟩ 10 20 0).2 0).minx ≤ 10 ∧
    (10 : ℚ) ≤ (GlobalGeodetic.TileBounds ⟨256⟩ (GlobalGeodetic.LatLonToTile ⟨256⟩ 10 20 0).1
        (GlobalGeodetic.LatLonToTile ⟨256⟩ 10 20 0).2 0).maxx ∧
    (GlobalGeodetic.TileBounds ⟨256⟩ (GlobalGeodetic.LatLonToTile ⟨256⟩ 10 20 0).1
        (GlobalGeodetic.LatLonToTile ⟨256⟩ 10 20 0).2 0).miny ≤ 20 ∧
    (20 : ℚ) ≤ (GlobalGeodetic.TileBounds ⟨256⟩ (GlobalGeodetic.LatLonToTile ⟨256⟩ 10 20 0).1
        (GlobalGeodetic.LatLonToTile ⟨256⟩ 10 20 0).2 0).maxy :=
  tileBounds_contains_point ⟨256⟩ (by norm_num) 0 10 20
    ⟨1, 0, by norm_num [GlobalGeodetic.TileBounds]⟩

/-! ## C6: tile matrix clamping -/

/-- C6 counterexample: a dataset lying entirely outside the world bounds
(corners `(-300, -300)` and `(-250, -250)` in degrees) at zoom 0 is silently
stored as an inverted rectangle (`tmaxx < tminx`) — no error is raised, so
the claim's ordering invariant and its error-reporting clause fail. -/
theorem tminmax_inverted_counterexample :
    (tminmaxGeodetic ⟨256⟩ (-300) (-300) (-250) (-250) 0).tmaxx <
    (tminmaxGeodetic ⟨256⟩ (-300) (-300) (-250) (-250) 0).tminx := by
  have h1 : ⌈(-(7 / 18) : ℚ)⌉ = 0 := by norm_num
  have h2 : ⌈(-(2 / 3) : ℚ)⌉ = 0 := by norm_num
  norm_num [tminmaxGeodetic, GlobalGeodetic.LatLonToTile,
    GlobalGeodetic.LatLonToPixels, GlobalGeodetic.PixelsToTile, h1, h2]

/-- C6 amended: for both profiles the stored tile matrix entry always
satisfies the world clamps — geodetic: `0 ≤ tminx`, `0 ≤ tminy`,
`tmaxx ≤ 2^(tz+1) - 1`, `tmaxy ≤ 2^tz - 1`; mercator: the same with
`2^tz - 1` on both axes — for every dataset; and it is a well-ordered
rectangle (`tminx ≤ tmaxx`, `tminy ≤ tmaxy`) whenever the unclipped corner
tile indices intersect the world range on each axis.  For a dataset
entirely outside world bounds no error is reported: the code silently
stores an inverted rectangle (see the counterexample). -/
theorem tminmax_clamped_and_ordered :
    (∀ (g : GlobalGeodetic) (ominx ominy omaxx omaxy : ℚ) (tz : ℕ),
      0 ≤ (tminmaxGeodetic g ominx ominy omaxx omaxy tz).tminx ∧
      0 ≤ (tminmaxGeodetic g ominx ominy omaxx omaxy tz).tminy ∧
      (tminmaxGeodetic g ominx ominy omaxx omaxy tz).tmaxx ≤ 2 ^ (tz + 1) - 1 ∧
      (tminmaxGeodetic g ominx ominy omaxx omaxy tz).tmaxy ≤ 2 ^ tz - 1) ∧
    (∀ (m : GlobalMercator) (ominx ominy omaxx omaxy : ℚ) (tz : ℕ),
      0 ≤ (tminmaxMercator m ominx ominy omaxx omaxy tz).tminx ∧
      0 ≤ (tminmaxMercator m ominx ominy omaxx omaxy tz).tminy ∧
      (tminmaxMercator m ominx ominy omaxx omaxy tz).tmaxx ≤ 2 ^ tz - 1 ∧
      (tminmaxMercator m ominx ominy omaxx omaxy tz).tmaxy ≤ 2 ^ tz - 1) ∧
    (∀ (g : GlobalGeodetic) (ominx ominy omaxx omaxy : ℚ) (tz : ℕ),
      (g.LatLonToTile ominx ominy tz).1 ≤ (g.LatLonToTile omaxx omaxy tz).1 →
      (g.LatLonToTile ominx ominy tz).2 ≤ (g.LatLonToTile omaxx omaxy tz).2 →
      0 ≤ (g.LatLonToTile omaxx omaxy tz).1 →
      0 ≤ (g.LatLonToTile omaxx omaxy tz).2 →
      (g.LatLonToTile ominx ominy tz).1 ≤ 2 ^ (tz + 1) - 1 →
      (g.LatLonToTile ominx ominy tz).2 ≤ 2 ^ tz - 1 →
      (tminmaxGeodetic g ominx ominy omaxx omaxy tz).tminx ≤
        (tminmaxGeodetic g ominx ominy omaxx omaxy tz).tmaxx ∧
      (tminmaxGeodetic g ominx ominy omaxx omaxy tz).tminy ≤
        (tminmaxGeodetic g ominx ominy omaxx omaxy tz).tmaxy) ∧
    (∀ (m : GlobalMercator) (ominx ominy omaxx omaxy : ℚ) (tz : ℕ),
      (m.MetersToTile ominx ominy tz).1 ≤ (m.MetersToTile omaxx omaxy tz).1 →
      (m.MetersToTile ominx ominy tz).2 ≤ (m.MetersToTile omaxx omaxy tz).2 →
      0 ≤ (m.MetersToTile omaxx omaxy tz).1 →
      0 ≤ (m.MetersToTile omaxx omaxy tz).2 →
      (m.MetersToTile ominx ominy tz).1 ≤ 2 ^ tz - 1 →
      (m.MetersToTile ominx ominy tz).2 ≤ 2 ^ tz - 1 →
      (tminmaxMercator m ominx ominy omaxx omaxy tz).tminx ≤
        (tminmaxMercator m ominx ominy omaxx omaxy tz).tmaxx ∧
      (tminmaxMercator m ominx ominy omaxx omaxy tz).tminy ≤
        (tminmaxMercator m ominx ominy omaxx omaxy tz).tmaxy) := by
  refine ⟨?_, ?_, ?_, ?_⟩
  · intro g ominx ominy omaxx omaxy tz
    have hpx : (0 : ℤ) < 2 ^ (tz + 1) := by positivity
    have hpy : (0 : ℤ) < 2 ^ tz := by positivity
    simp only [tminmaxGeodetic]
    refine ⟨?_, ?_, ?_, ?_⟩ <;> omega
  · intro m ominx ominy omaxx omaxy tz
    have hpy : (0 : ℤ) < 2 ^ tz := by positivity
    simp only [tminmaxMercator]
    refine ⟨?_, ?_, ?_, ?_⟩ <;> omega
  · intro g ominx ominy omaxx omaxy tz h1 h2 h3 h4 h5 h6
    have hpx : (0 : ℤ) < 2 ^ (tz + 1) := by positivity
    have hpy : (0 : ℤ) < 2 ^ tz := by positivity
    simp only [tminmaxGeodetic]
    constructor <;> omega
  · intro m ominx ominy omaxx omaxy tz h1 h2 h3 h4 h5 h6
    have hpy : (0 : ℤ) < 2 ^ tz := by positivity
    simp only [tminmaxMercator]
    constructor <;> omega

/-- Witness for the amended C6: the geodetic parts at a dataset with
corners `(-180, -90)` and `(0, 0)` at zoom 1, and the mercator parts at a
world of origin shift 128 with corners `(-128, -128)` and `(128, 128)` at
zoom 0. -/
theorem tminmax_clamped_and_ordered_witness :
    (0 ≤ (tminmaxGeodetic ⟨256⟩ (-180) (-90) 0 0 1).tminx ∧
     0 ≤ (tminmaxGeodetic ⟨256⟩ (-180) (-90) 0 0 1).tminy ∧
     (tminmaxGeodetic ⟨256⟩ (-180) (-90) 0 0 1).tmaxx ≤ 2 ^ (1 + 1) - 1 ∧
     (tminmaxGeodetic ⟨256⟩ (-180) (-90) 0 0 1).tmaxy ≤ 2 ^ 1 - 1) ∧
    (0 ≤ (tminmaxMercator ⟨256, 128⟩ (-128) (-128) 128 128 0).tminx ∧
     0 ≤ (tminmaxMercator ⟨256, 128⟩ (-128) (-128) 128 128 0).tminy ∧
     (tminmaxMercator ⟨256, 128⟩ (-128) (-128) 128 128 0).tmaxx ≤ 2 ^ 0 - 1 ∧
     (tminmaxMercator ⟨256, 128⟩ (-128) (-128) 128 128 0).tmaxy ≤ 2 ^ 0 - 1) ∧
    ((tminmaxGeodetic ⟨256⟩ (-180) (-90) 0 0 1).tminx ≤
       (tminmaxGeodetic ⟨256⟩ (-180) (-90) 0 0 1).tmaxx ∧
     (tminmaxGeodetic ⟨256⟩ (-180) (-90) 0 0 1).tminy ≤
       (tminmaxGeodetic ⟨256⟩ (-180) (-90) 0 0 1).tmaxy) ∧
    ((tminmaxMercator ⟨256, 128⟩ (-128) (-128) 128 128 0).tminx ≤
       (tminmaxMercator ⟨256, 128⟩ (-128) (-128) 128 128 0).tmaxx ∧
     (tminmaxMercator ⟨256, 128⟩ (-128) (-128) 128 128 0).tminy ≤
       (tminmaxMercator ⟨256, 128⟩ (-128) (-128) 128 128 0).tmaxy) :=
  ⟨tminmax_clamped_and_ordered.1 ⟨256⟩ (-180) (-90) 0 0 1,
   tminmax_clamped_and_ordered.2.1 ⟨256, 128⟩ (-128) (-128) 128 128 0,
   tminmax_clamped_and_ordered.2.2.1 ⟨256⟩ (-180) (-90) 0 0 1
     (by norm_num [GlobalGeodetic.LatLonToTile, GlobalGeodetic.LatLonToPixels,
       GlobalGeodetic.PixelsToTile])
     (by norm_num [GlobalGeodetic.LatLonToTile, GlobalGeodetic.LatLonToPixels,
       GlobalGeodetic.PixelsToTile])
     (by norm_num [GlobalGeodetic.LatLonToTile, GlobalGeodetic.LatLonToPixels,
       GlobalGeodetic.PixelsToTile])
     (by norm_num [GlobalGeodetic.LatLonToTile, GlobalGeodetic.LatLonToPixels,
       GlobalGeodetic.PixelsToTile])
     (by norm_num [GlobalGeodetic.LatLonToTile, GlobalGeodetic.LatLonToPixels,
       GlobalGeodetic.PixelsToTile])
     (by norm_num [GlobalGeodetic.LatLonToTile, GlobalGeodetic.LatLonToPixels,
       GlobalGeodetic.PixelsToTile]),
   tminmax_clamped_and_ordered.2.2.2 ⟨256, 128⟩ (-128) (-128) 128 128 0
     (by norm_num [GlobalMercator.MetersToTile, GlobalMercator.MetersToPixels,
       GlobalMercator.PixelsToTile])
     (by norm_num [GlobalMercator.MetersToTile, GlobalMercator.MetersToPixels,
       GlobalMercator.PixelsToTile])
     (by norm_num [GlobalMercator.MetersToTile, GlobalMercator.MetersToPixels,
       GlobalMercator.PixelsToTile])
     (by norm_num [GlobalMercator.MetersToTile, GlobalMercator.MetersToPixels,
       GlobalMercator.PixelsToTile])
     (by norm_num [GlobalMercator.MetersToTile, GlobalMercator.MetersToPixels,
       GlobalMercator.PixelsToTile])
     (by norm_num [GlobalMercator.MetersToTile, GlobalMercator.MetersToPixels,
       GlobalMercator.PixelsToTile])⟩

/-! ## C8: provider failure aborts before any tile write -/

theorem regenLoop_error_of_failure (status : ℕ → ℤ) (tilefilename : String) :
    ∀ l : List ℕ, (∃ i ∈ l, status i ≠ 0) →
      ∃ m, regenLoop status tilefilename l = Except.error m ∧
        ∃ p q, m = p ++ tilefilename ++ q := by
  intro l
  induction l with
  | nil =>
    rintro ⟨i, hi, _⟩
    simp at hi
  | cons a rest ih =>
    rintro ⟨i, hi, hne⟩
    simp only [regenLoop]
    by_cases ha : status a ≠ 0
    · rw [if_pos ha]
      exact ⟨_, rfl, ("RegenerateOverview() failed on "),
        (", error ") ++ toString (status a), by simp [String.append_assoc]⟩
    · rw [if_neg ha]
      apply ih
      push_neg at ha
      rcases List.mem_cons.mp hi with h | h
      · subst h
        exact absurd ha hne
      · exact ⟨i, h, hne⟩

/-- C8: if a resampling provider call reports a non-zero status — a
`gdal.RegenerateOverview` band status under the `'average'` strategy, or the
`gdal.ReprojectImage` status under the other GDAL-backed strategies — the
run aborts with an error message that contains the failing tile's file name,
and the tile file is not written: `CreateCopy` only runs after
`scale_query_to_tile` returns without error. -/
theorem provider_failure_aborts_without_tile_write
    (resampling : Resampling) (tilebands : ℕ) (regenStatus : ℕ → ℤ)
    (reprojStatus : ℤ) (tilefilename : String)
    (hfail :
      (resampling = Resampling.average ∧
        ∃ i, 1 ≤ i ∧ i ≤ tilebands ∧ regenStatus i ≠ 0) ∨
      (resampling ≠ Resampling.average ∧ resampling ≠ Resampling.antialias ∧
        reprojStatus ≠ 0)) :
    ∃ m, writeTileAfterScale resampling tilebands regenStatus reprojStatus
        tilefilename = Except.error m ∧
      (∃ p q, m = p ++ tilefilename ++ q) ∧
      ∀ files, writeTileAfterScale resampling tilebands regenStatus reprojStatus
        tilefilename ≠ Except.ok files := by
  rcases hfail with ⟨havg, i, h1, h2, hne⟩ | ⟨hna, hnaa, hrp⟩
  · subst havg
    have hmem : i ∈ (List.range tilebands).map (fun j => j + 1) := by
      simp only [List.mem_map, List.mem_range]
      exact ⟨i - 1, by omega, by omega⟩
    obtain ⟨m, hm, hpq⟩ :=
      regenLoop_error_of_failure regenStatus tilefilename _ ⟨i, hmem, hne⟩
    have hw : writeTileAfterScale Resampling.average tilebands regenStatus
        reprojStatus tilefilename = Except.error m := by
      simp [writeTileAfterScale, scale_query_to_tile, hm]
    exact ⟨m, hw, hpq, fun files hcontra => by
      rw [hw] at hcontra
      exact Except.noConfusion hcontra⟩
  · have hscale : scale_query_to_tile resampling tilebands regenStatus
        reprojStatus tilefilename =
        Except.error (("ReprojectImage() failed on ") ++ tilefilename ++
          (", error ") ++ toString reprojStatus) := by
      cases resampling
      case average => exact absurd rfl hna
      case antialias => exact absurd rfl hnaa
      all_goals simp [scale_query_to_tile, hrp]
    have hw : writeTileAfterScale resampling tilebands regenStatus
        reprojStatus tilefilename =
        Except.error (("ReprojectImage() failed on ") ++ tilefilename ++
          (", error ") ++ toString reprojStatus) := by
      simp [writeTileAfterScale, hscale]
    exact ⟨_, hw, ⟨("ReprojectImage() failed on "),
      (", error ") ++ toString reprojStatus, by simp [String.append_assoc]⟩,
      fun files hcontra => by
        rw [hw] at hcontra
        exact Except.noConfusion hcontra⟩

/-- Witness for C8: `'average'` resampling, one band whose
`RegenerateOverview` status is 1. -/
theorem provider_failure_aborts_without_tile_write_witness :
    ∃ m, writeTileAfterScale Resampling.average 1 (fun _ => 1) 0 sampleTileName
        = Except.error m ∧
      (∃ p q, m = p ++ sampleTileName ++ q) ∧
      ∀ files, writeTileAfterScale Resampling.average 1 (fun _ => 1) 0
        sampleTileName ≠ Except.ok files :=
  provider_failure_aborts_without_tile_write Resampling.average 1 (fun _ => 1) 0
    sampleTileName (Or.inl ⟨rfl, 1, by norm_num, by norm_num, by norm_num⟩)

/-! ## C9: zoom option "3-3" -/

/-- C9: the zoom option `"3-3"` parses to `tminz = tmaxz = 3`; base tiles
are generated only at zoom `tmaxz = 3` and the overview loop over
`range(tmaxz - 1, tminz - 1, -1)` is empty, so tiles are generated at zoom
level 3 only. -/
theorem zoom_option_3_3_generates_only_level_3 :
    parseZoomOption zoomOptionString = some (3, 3) ∧
    overviewZoomLevels 3 3 = [] ∧
    generatedZoomLevels 3 3 = [3] := by
  refine ⟨?_, ?_, ?_⟩ <;> decide

/-! ## C10: NODATA_VALUES metadata write -/

/-- C10: the NODATA_VALUES metadata write of `open_input` formats
`in_nodata[0]`, `in_nodata[1]` and `in_nodata[2]` unconditionally, so on the
warped-VRT NODATA path (taken whenever `in_nodata` is non-empty) an
effective NODATA list of length 1 or 2 — e.g. a single-band raster with one
NODATA value — raises an IndexError; at least three entries are assumed. -/
theorem nodata_metadata_write_needs_three_values :
    ([(-9999 : ℚ)] ≠ ([] : List ℚ)) ∧
    nodataValuesItem [(-9999 : ℚ)] = none ∧
    nodataValuesItem [(-9999 : ℚ), (-9998 : ℚ)] = none ∧
    (nodataValuesItem [(-9999 : ℚ), (-9998 : ℚ), (-9997 : ℚ)]).isSome = true := by
  refine ⟨?_, ?_, ?_, ?_⟩ <;> decide

end Tilegen
